import Mathlib

/-!
Verification of the asyncio WAMP binding (`autobahn/asyncio/wamp.py`):
a shallow embedding of its transport-resolution, stream-connection,
protocol-factory and runner logic, with theorems about the behaviour the
specification describes.

Dictionary accesses `cfg[k]` are embedded as lookups in optional fields that
raise `Err.keyError k` when the key is absent, matching Python dict semantics.
Each `raise RuntimeError(...)` site in the source is given its own `Err`
constructor, named after the error category the specification assigns to that
site, carrying the string the source formats into the message.
-/

namespace Autobahn

/-- Errors raised by the embedded code. `keyError` models a Python `KeyError`
on a missing dict key; `parseError` a failure of the URL parsing utility;
the remaining constructors correspond one-to-one to the `raise RuntimeError`
sites in the source (`unsupportedTransport` for the rawsocket rejection,
`unsupportedAddressFamily` for the non-IPv4 rejection, `unknownTransportType`
for the unknown-endpoint-type rejection, carrying the string the source
formats into the message). `otherError` stands for an arbitrary runtime
failure coming from a collaborator (e.g. a refused connection). -/
inductive Err where
  | keyError (k : String)
  | parseError (url : String)
  | unsupportedTransport (msg : String)
  | unsupportedAddressFamily (msg : String)
  | unknownTransportType (t : String)
  | otherError (msg : String)
  deriving DecidableEq, Repr

/-- The nested `endpoint` dict of a transport configuration. Every field is
optional, as in a Python dict; `version` and `tls` are read in the source with
`.get` and a default, the others with `[...]`. -/
structure Endpoint where
  type : Option String
  path : Option String
  host : Option String
  port : Option Nat
  version : Option Nat
  tls : Option Bool
  deriving DecidableEq, Repr

/-- A client transport configuration dict. The top-level `path` field exists
because the source's unix branch reads `cfg[ "path" ]` on the full transport
config (not on the endpoint dict); a well-formed config per the spec does not
carry it. -/
structure TransportConfig where
  type : Option String
  url : Option String
  path : Option String
  endpoint : Option Endpoint
  deriving DecidableEq, Repr

/-- Dict lookup: `dictGet k v` is `d[k]` where `v` is the value stored under
`k` if any; raises `KeyError` when the key is absent. -/
def dictGet {α : Type} (k : String) : Option α → Except Err α
  | some v => Except.ok v
  | none => Except.error (Err.keyError k)

/-- Result of `parseWsUrl`: the secure flag implied by the URL scheme, plus
the remainder of the URL after the scheme. -/
structure ParsedWsUrl where
  isSecure : Bool
  rest : String
  deriving DecidableEq, Repr

/-- Modelled from the spec: `parseWsUrl` lives in
`autobahn.websocket.protocol`, which is not part of the provided source. The
spec describes it as the "URL parsing utility: decodes a connection URL into
(secure?, host, port, resource path, query parameters)", with TLS-enablement
defaulting to "whatever the URL's scheme implies (secure vs. insecure)". Only
the secure flag and parse success or failure matter to the code under
verification, so the model keeps the part after the scheme unparsed: a
`wss` scheme is secure, a `ws` scheme insecure, and anything else is a
malformed websocket URL, rejected with a parse error. -/
def parseWsUrl (url : String) : Except Err ParsedWsUrl :=
  if ("wss://").data.isPrefixOf url.data then
    Except.ok { isSecure := true, rest := url.drop 6 }
  else if ("ws://").data.isPrefixOf url.data then
    Except.ok { isSecure := false, rest := url.drop 5 }
  else
    Except.error (Err.parseError url)

/-- The outbound connection request a successful `_connect_stream` issues on
the event loop: either `loop.create_unix_connection(factory, path)` or
`loop.create_connection(factory, host, port, ssl=ssl)`. -/
inductive ConnectRequest where
  | unixConnect (path : String)
  | tcpConnect (host : String) (port : Nat) (ssl : Bool)
  deriving DecidableEq, Repr

/-- Embedding of `_create_unix_stream_transport(loop, cfg, factory)`: issues a
unix-socket connection to `cfg[ "path" ]`. Note the source passes the full
transport config as `cfg` here, so the path is read from the top level of the
transport config, not from its endpoint dict. -/
def _create_unix_stream_transport (cfg : TransportConfig) :
    Except Err ConnectRequest := do
  let p ← dictGet "path" cfg.path
  return ConnectRequest.unixConnect p

/-- Embedding of `_connect_stream(loop, cfg, factory)`: parses the websocket
URL, then dispatches on the endpoint type; `unix` issues a unix-socket
request, `tcp` with (defaulted) version 4 issues a TCP request with the
resolved TLS flag, `tcp` with any other version raises, and any other endpoint
type raises an unknown-type error formatted with the TOP-LEVEL `cfg[ "type" ]`
(exactly as the source does). -/
def _connect_stream (cfg : TransportConfig) : Except Err ConnectRequest := do
  let url ← dictGet "url" cfg.url
  let parsed ← parseWsUrl url
  let ep ← dictGet "endpoint" cfg.endpoint
  let eptype ← dictGet "type" ep.type
  if eptype = "unix" then
    _create_unix_stream_transport cfg
  else if eptype = "tcp" then
    if ep.version.getD 4 = 4 then
      let ssl := parsed.isSecure
      let ssl := ep.tls.getD ssl
      let host ← dictGet "host" ep.host
      let port ← dictGet "port" ep.port
      return ConnectRequest.tcpConnect host port ssl
    else
      Except.error (Err.unsupportedAddressFamily "FIXME: IPv6 asyncio")
  else do
    let t ← dictGet "type" cfg.type
    Except.error (Err.unknownTransportType t)

/-- The websocket client protocol factory, configured with a session-producing
callable (left implicit: `connect_to` always wraps one fixed session) and the
transport URL. -/
structure WampWebSocketClientFactory where
  url : String
  deriving DecidableEq, Repr

/-- Embedding of `_create_wamp_factory(reactor, cfg, session_factory)`:
rejects `cfg[ "type" ] == "rawsocket"` unconditionally; every other type is
treated as websocket and yields a factory configured with `cfg[ "url" ]`. -/
def _create_wamp_factory (cfg : TransportConfig) :
    Except Err WampWebSocketClientFactory := do
  let t ← dictGet "type" cfg.type
  if t = "rawsocket" then
    Except.error (Err.unsupportedTransport "No rawsocket/asyncio impl")
  else do
    let url ← dictGet "url" cfg.url
    return { url := url }

/-- Embedding of the synchronous phase of `connect_to(loop, transport_config,
session)`: build the protocol factory, then resolve and issue the stream
connection request. Any error here is raised synchronously to the caller,
before any network I/O completes and before the output future exists. -/
def connect_to (cfg : TransportConfig) : Except Err ConnectRequest := do
  let _tf ← _create_wamp_factory cfg
  _connect_stream cfg

/-- An asyncio protocol instance, identified by `pid`. Its
`connection_lost` handler records an invocation by appending `pid` to a call
log, so that "invoked exactly once" is visible as exactly one appended
entry. -/
structure Proto where
  pid : Nat
  deriving DecidableEq, Repr

/-- The protocol's connection-loss handler: records one invocation. -/
def Proto.connection_lost (p : Proto) (log : List Nat) : List Nat :=
  log ++ [p.pid]

/-- A low-level transport handle. `connectionLost` is the attribute slot the
source assigns into (`transport.connectionLost = protocol.connection_lost`);
triggering the connection-loss notification on the handle invokes whatever
handler is stored there. -/
structure Transport where
  tid : Nat
  connectionLost : List Nat → List Nat

/-- State of the output future `f1` of `connect_to`. -/
inductive FutureState (α : Type) where
  | pending
  | resolved (a : α)
  | failed (e : Err)

/-- Embedding of the `return_proto` done-callback inside `connect_to`: given
the completed result of the stream-connection future `f0` (a transport plus
protocol pair on success, an error on failure), it patches the transport's
`connectionLost` slot with the protocol's own `connection_lost` handler and
resolves `f1` with just the protocol; on failure it fails `f1` with the same
error. Returns the final state of `f1` together with the patched transport
handle (when one exists). -/
def return_proto (result : Except Err (Transport × Proto)) :
    FutureState Proto × Option Transport :=
  match result with
  | Except.ok (transport, protocol) =>
      (FutureState.resolved protocol,
       some { transport with connectionLost := protocol.connection_lost })
  | Except.error e => (FutureState.failed e, none)

/-- A WAMP application session object, as far as the runner inspects it: its
`_session_id` attribute (`none` models Python `None`). -/
structure Session where
  session_id : Option Nat
  deriving DecidableEq, Repr

/-- Python truthiness of a `_session_id` value: `None` and `0` are falsy. -/
def truthy : Option Nat → Bool
  | none => false
  | some n => n != 0

/-- How `loop.run_until_complete(self.connection.open())` ends: normal
completion, a `KeyboardInterrupt` (caught by the source), or any other
exception (not caught). -/
inductive OpenOutcome where
  | ok
  | keyboardInterrupt
  | failed (e : Err)
  deriving DecidableEq, Repr

/-- Observable events of one `ApplicationRunner.run()` invocation:
the `open()` call, a `leave()` call on a session with the given
`_session_id`, and the closing of the event loop. -/
inductive Ev where
  | openCall
  | leaveCall (sid : Option Nat)
  | loopClose
  deriving DecidableEq, Repr

/-- Environment of one `run()` invocation. `factorySession` is the session
the session factory produced for this run (handed to the `Connection`
collaborator). `moduleSession` is the value of the module-level attribute
`protocol._session` that the shutdown code inspects — `protocol` being the
imported `autobahn.wamp.protocol` MODULE, not this run's session; `none`
models the attribute being absent (as it is on that module, which defines no
`_session`) or `None`. `leaveErr` is the outcome of `leave()` should it be
awaited. -/
structure RunEnv where
  factorySession : Session
  openOutcome : OpenOutcome
  moduleSession : Option Session
  leaveErr : Option Err
  deriving DecidableEq, Repr

/-- Embedding of the tail of `ApplicationRunner.run(session_factory)`, from
the `loop.run_until_complete(self.connection.open())` call onward. Returns
the trace of observable events together with the exception propagating out of
`run()`, if any. Faithful to the source: only `KeyboardInterrupt` is caught;
the shutdown check reads `protocol._session` (the module attribute) and its
`_session_id` truthiness, never `env.factorySession`; `loop.close()` is only
reached on the fall-through path (there is no try/finally around it). -/
def ApplicationRunner_run (env : RunEnv) : List Ev × Option Err :=
  match env.openOutcome with
  | OpenOutcome.failed e => ([Ev.openCall], some e)
  | _ =>
    match env.moduleSession with
    | some s =>
      if truthy s.session_id then
        match env.leaveErr with
        | some e => ([Ev.openCall, Ev.leaveCall s.session_id], some e)
        | none =>
            ([Ev.openCall, Ev.leaveCall s.session_id, Ev.loopClose], none)
      else ([Ev.openCall, Ev.loopClose], none)
    | none => ([Ev.openCall, Ev.loopClose], none)

/-- Reduction of a successful bind over `Except Err`. -/
theorem ok_bind {α β : Type} (a : α) (f : α → Except Err β) :
    (Except.ok a >>= f) = f a := rfl

/-- Reduction of a failed bind over `Except Err`. -/
theorem err_bind {α β : Type} (e : Err) (f : α → Except Err β) :
    ((Except.error e : Except Err α) >>= f) = Except.error e := rfl

/-- Reduction of map over a successful `Except Err`. -/
theorem ok_map {α β : Type} (a : α) (f : α → β) :
    (f <$> (Except.ok a : Except Err α)) = Except.ok (f a) := rfl

/-- Reduction of map over a failed `Except Err`. -/
theorem err_map {α β : Type} (e : Err) (f : α → β) :
    (f <$> (Except.error e : Except Err α)) = (Except.error e : Except Err β) := rfl

/-- Claim C2: whenever the stream connector's future completes, the bridge
callback settles the output future in exactly one of two ways — resolved with
exactly the protocol instance (the second component of the transport plus
protocol pair) when the connector succeeded, failed with the identical error
object when it failed — and never leaves it pending. -/
theorem connect_to_bridge_exactly_one_outcome
    (r : Except Err (Transport × Proto)) :
    ((∃ tp, r = Except.ok tp ∧
        (return_proto r).1 = FutureState.resolved tp.2) ∨
     (∃ e, r = Except.error e ∧
        (return_proto r).1 = FutureState.failed e)) ∧
    (return_proto r).1 ≠ FutureState.pending := by
  cases r with
  | ok tp =>
      cases tp with
      | mk t p =>
          refine ⟨Or.inl ⟨(t, p), rfl, rfl⟩, ?_⟩
          intro h
          exact FutureState.noConfusion h
  | error e =>
      refine ⟨Or.inr ⟨e, rfl, rfl⟩, ?_⟩
      intro h
      exact FutureState.noConfusion h

/-- Claim C3: on a successful resolution of `connect_to`, the transport handle
paired with the returned protocol instance has its connection-loss slot
rewired to that protocol's own `connection_lost` handler, so triggering the
connection-loss notification on the handle invokes the protocol's handler
exactly once (exactly one invocation record, carrying that protocol's id, is
appended to the call log). -/
theorem connect_to_wires_connection_lost
    (t : Transport) (p : Proto) (log : List Nat) :
    ∃ t2, (return_proto (Except.ok (t, p))).2 = some t2 ∧
      t2.connectionLost = p.connection_lost ∧
      t2.connectionLost log = log ++ [p.pid] := by
  refine ⟨{ t with connectionLost := p.connection_lost }, rfl, rfl, rfl⟩

/-- Claim C1 (code bug): a user interrupt during `open()` while the session
created for this run holds an active session id (here 7). The claim says
`leave()` then runs before the loop closes; the code instead consults the
module-level attribute `protocol._session` — absent on that module — so the
resulting trace is just the `open()` call followed by the loop closing:
no `leave()` call at all, for any session. -/
theorem run_interrupt_never_leaves_runs_session :
    ApplicationRunner_run
      { factorySession := { session_id := some 7 },
        openOutcome := OpenOutcome.keyboardInterrupt,
        moduleSession := none,
        leaveErr := none }
      = ([Ev.openCall, Ev.loopClose], none) := rfl

/-- Claim C4 (code bug): on the spec's scenario config — socket path inside
the endpoint, no top-level path — the unix branch raises `KeyError` for
`path` instead of connecting to the endpoint's path; and when a top-level
path IS present, it is the one used, even though it differs from the
endpoint's path. -/
theorem unix_connect_uses_toplevel_path :
    _connect_stream
      { type := some "websocket", url := some "ws://localhost/ws",
        path := none,
        endpoint := some { type := some "unix", path := some "/tmp/x.sock",
                           host := none, port := none,
                           version := none, tls := none } }
      = Except.error (Err.keyError "path") ∧
    _connect_stream
      { type := some "websocket", url := some "ws://localhost/ws",
        path := some "/other.sock",
        endpoint := some { type := some "unix", path := some "/tmp/x.sock",
                           host := none, port := none,
                           version := none, tls := none } }
      = Except.ok (ConnectRequest.unixConnect "/other.sock") := by
  exact ⟨rfl, rfl⟩

/-- Claim C8 (code bug): an endpoint type that is neither unix nor tcp does
fail with the unknown-transport-type error, but the error carries the
top-level config type string (here "websocket"), not the offending endpoint
type string ("bogus"). -/
theorem unknown_type_carries_toplevel_type :
    _connect_stream
      { type := some "websocket", url := some "ws://localhost/ws",
        path := none,
        endpoint := some { type := some "bogus", path := none,
                           host := none, port := none,
                           version := none, tls := none } }
      = Except.error (Err.unknownTransportType "websocket") ∧
    Err.unknownTransportType "websocket" ≠ Err.unknownTransportType "bogus" := by
  refine ⟨rfl, ?_⟩
  intro h
  simp at h

/-- Claim C9 (counterexample): when `open()` fails with an ordinary error
(not a user interrupt), `run()` propagates the exception and the trace ends
without the loop ever being closed — refuting the claim that the loop is
closed unconditionally whenever the connection attempt fails. -/
theorem run_open_failure_leaves_loop_open :
    ApplicationRunner_run
      { factorySession := { session_id := none },
        openOutcome := OpenOutcome.failed (Err.otherError "connection refused"),
        moduleSession := none,
        leaveErr := none }
      = ([Ev.openCall], some (Err.otherError "connection refused")) := rfl

/-- Claim C5: for a tcp endpoint (with parseable URL and host and port
present), an absent `version` key defaults to 4 and the connection attempt
proceeds; a `version` set to anything other than 4 fails with the
unsupported-address-family configuration error instead of silently falling
back. -/
theorem tcp_version_default_and_rejection
    (cfg : TransportConfig) (u : String) (pu : ParsedWsUrl) (ep : Endpoint)
    (hst : String) (prt : Nat)
    (hu : cfg.url = some u) (hp : parseWsUrl u = Except.ok pu)
    (he : cfg.endpoint = some ep) (ht : ep.type = some "tcp")
    (hh : ep.host = some hst) (hpo : ep.port = some prt) :
    (ep.version = none →
      _connect_stream cfg =
        Except.ok (ConnectRequest.tcpConnect hst prt (ep.tls.getD pu.isSecure))) ∧
    (∀ v, ep.version = some v → v ≠ 4 →
      _connect_stream cfg =
        Except.error (Err.unsupportedAddressFamily "FIXME: IPv6 asyncio")) := by
  constructor
  · intro hv
    simp [_connect_stream, dictGet, hu, hp, he, ht, hh, hpo, hv,
          ok_bind, err_bind, ok_map, err_map]
  · intro v hv hv4
    simp [_connect_stream, dictGet, hu, hp, he, ht, hv, hv4,
          ok_bind, err_bind, ok_map, err_map]

/-- Witness for C5 at concrete configs: a tcp endpoint without a version key
connects (to example.org:80, plain ws scheme, so no TLS), and the same
endpoint with version 6 is rejected. -/
theorem tcp_version_default_and_rejection_witness :
    _connect_stream
      { type := some "websocket", url := some "ws://example.org/ws",
        path := none,
        endpoint := some { type := some "tcp", path := none,
                           host := some "example.org", port := some 80,
                           version := none, tls := none } }
      = Except.ok (ConnectRequest.tcpConnect "example.org" 80 false) ∧
    _connect_stream
      { type := some "websocket", url := some "ws://example.org/ws",
        path := none,
        endpoint := some { type := some "tcp", path := none,
                           host := some "example.org", port := some 80,
                           version := some 6, tls := none } }
      = Except.error (Err.unsupportedAddressFamily "FIXME: IPv6 asyncio") := by
  constructor
  · exact (tcp_version_default_and_rejection
      { type := some "websocket", url := some "ws://example.org/ws",
        path := none,
        endpoint := some { type := some "tcp", path := none,
                           host := some "example.org", port := some 80,
                           version := none, tls := none } }
      "ws://example.org/ws" { isSecure := false, rest := "example.org/ws" }
      { type := some "tcp", path := none, host := some "example.org",
        port := some 80, version := none, tls := none }
      "example.org" 80 rfl rfl rfl rfl rfl rfl).1 rfl
  · exact (tcp_version_default_and_rejection
      { type := some "websocket", url := some "ws://example.org/ws",
        path := none,
        endpoint := some { type := some "tcp", path := none,
                           host := some "example.org", port := some 80,
                           version := some 6, tls := none } }
      "ws://example.org/ws" { isSecure := false, rest := "example.org/ws" }
      { type := some "tcp", path := none, host := some "example.org",
        port := some 80, version := some 6, tls := none }
      "example.org" 80 rfl rfl rfl rfl rfl rfl).2 6 rfl (by decide)

/-- Claim C6: a transport config whose type is rawsocket makes the protocol
factory selector fail unconditionally, whatever the other fields hold, and
`connect_to` propagates this failure synchronously: no stream connection
request is ever produced. -/
theorem rawsocket_unsupported (cfg : TransportConfig)
    (h : cfg.type = some "rawsocket") :
    _create_wamp_factory cfg =
      Except.error (Err.unsupportedTransport "No rawsocket/asyncio impl") ∧
    connect_to cfg =
      Except.error (Err.unsupportedTransport "No rawsocket/asyncio impl") := by
  have h1 : _create_wamp_factory cfg =
      Except.error (Err.unsupportedTransport "No rawsocket/asyncio impl") := by
    simp [_create_wamp_factory, dictGet, h, ok_bind, err_bind]
  exact ⟨h1, by simp [connect_to, h1, err_bind]⟩

/-- Witness for C6 at a concrete config: type rawsocket, all other fields
absent — `connect_to` still fails with the unsupported-transport error. -/
theorem rawsocket_unsupported_witness :
    connect_to { type := some "rawsocket", url := none, path := none,
                 endpoint := none }
      = Except.error (Err.unsupportedTransport "No rawsocket/asyncio impl") :=
  (rawsocket_unsupported
    { type := some "rawsocket", url := none, path := none, endpoint := none }
    rfl).2

/-- Claim C7: for a tcp endpoint, the resolved TLS flag is the URL scheme's
implication when the endpoint carries no tls key, and the endpoint's tls
value when that key is present. -/
theorem tcp_tls_resolution
    (cfg : TransportConfig) (u : String) (pu : ParsedWsUrl) (ep : Endpoint)
    (hst : String) (prt : Nat)
    (hu : cfg.url = some u) (hp : parseWsUrl u = Except.ok pu)
    (he : cfg.endpoint = some ep) (ht : ep.type = some "tcp")
    (hv : ep.version.getD 4 = 4)
    (hh : ep.host = some hst) (hpo : ep.port = some prt) :
    (ep.tls = none →
      _connect_stream cfg =
        Except.ok (ConnectRequest.tcpConnect hst prt pu.isSecure)) ∧
    (∀ b, ep.tls = some b →
      _connect_stream cfg =
        Except.ok (ConnectRequest.tcpConnect hst prt b)) := by
  constructor
  · intro htls
    simp [_connect_stream, dictGet, hu, hp, he, ht, hv, hh, hpo, htls,
          ok_bind, err_bind, ok_map, err_map]
  · intro b htls
    simp [_connect_stream, dictGet, hu, hp, he, ht, hv, hh, hpo, htls,
          ok_bind, err_bind, ok_map, err_map]

/-- Witness for C7 at the spec's scenario: endpoint
(tcp, example.org, 443) with no tls key and URL wss://example.org/ws —
resolved TLS is true (scheme-implied) and the connection request targets
example.org:443. -/
theorem tcp_tls_resolution_witness :
    _connect_stream
      { type := some "websocket", url := some "wss://example.org/ws",
        path := none,
        endpoint := some { type := some "tcp", path := none,
                           host := some "example.org", port := some 443,
                           version := none, tls := none } }
      = Except.ok (ConnectRequest.tcpConnect "example.org" 443 true) :=
  (tcp_tls_resolution
    { type := some "websocket", url := some "wss://example.org/ws",
      path := none,
      endpoint := some { type := some "tcp", path := none,
                         host := some "example.org", port := some 443,
                         version := none, tls := none } }
    "wss://example.org/ws" { isSecure := true, rest := "example.org/ws" }
    { type := some "tcp", path := none, host := some "example.org",
      port := some 443, version := none, tls := none }
    "example.org" 443 rfl rfl rfl rfl rfl rfl rfl).1 rfl

/-- Claim C9 (amended): `run()` closes the loop (the trace contains the
loop-close event) and returns normally whenever `open()` completes normally
or is interrupted by a user interrupt and the goodbye handshake, if one
happens, succeeds; but when `open()` fails with any other error, that error
propagates out of `run()` and the loop is never closed — the connection-failure
path is NOT exempted, contrary to the original claim. -/
theorem run_loop_close_conditions (env : RunEnv) :
    ((∀ e, env.openOutcome ≠ OpenOutcome.failed e) → env.leaveErr = none →
      (Ev.loopClose ∈ (ApplicationRunner_run env).1 ∧
       (ApplicationRunner_run env).2 = none)) ∧
    (∀ e, env.openOutcome = OpenOutcome.failed e →
      ((ApplicationRunner_run env).1 = [Ev.openCall] ∧
       (ApplicationRunner_run env).2 = some e)) := by
  constructor
  · intro hne hle
    cases ho : env.openOutcome with
    | failed e => exact absurd ho (hne e)
    | ok =>
        cases hms : env.moduleSession with
        | none => simp [ApplicationRunner_run, ho, hms]
        | some s =>
            by_cases hts : truthy s.session_id
            · simp [ApplicationRunner_run, ho, hms, hts, hle]
            · simp [ApplicationRunner_run, ho, hms, hts]
    | keyboardInterrupt =>
        cases hms : env.moduleSession with
        | none => simp [ApplicationRunner_run, ho, hms]
        | some s =>
            by_cases hts : truthy s.session_id
            · simp [ApplicationRunner_run, ho, hms, hts, hle]
            · simp [ApplicationRunner_run, ho, hms, hts]
  · intro e ho
    simp [ApplicationRunner_run, ho]

/-- Witness for the amended C9 at a concrete environment: a user interrupt
during `open()` with a truthy module-level session and a successful
`leave()` — the loop-close event is in the trace and `run()` raises
nothing. -/
theorem run_loop_close_conditions_witness :
    Ev.loopClose ∈ (ApplicationRunner_run
      { factorySession := { session_id := some 7 },
        openOutcome := OpenOutcome.keyboardInterrupt,
        moduleSession := some { session_id := some 9 },
        leaveErr := none }).1 ∧
    (ApplicationRunner_run
      { factorySession := { session_id := some 7 },
        openOutcome := OpenOutcome.keyboardInterrupt,
        moduleSession := some { session_id := some 9 },
        leaveErr := none }).2 = none :=
  (run_loop_close_conditions
    { factorySession := { session_id := some 7 },
      openOutcome := OpenOutcome.keyboardInterrupt,
      moduleSession := some { session_id := some 9 },
      leaveErr := none }).1 (fun e h => OpenOutcome.noConfusion h) rfl

/-- Claim C10: `connect_to` parses the websocket URL before the endpoint type
is examined — a successful connection request implies the url key was present
and parseable, and a present-but-malformed url makes the whole call fail
synchronously with the parse error, whatever the endpoint (unix ones
included). -/
theorem connect_to_requires_parseable_url (cfg : TransportConfig) :
    (∀ req, connect_to cfg = Except.ok req →
       ∃ u pu, cfg.url = some u ∧ parseWsUrl u = Except.ok pu) ∧
    (∀ u e t, cfg.url = some u → parseWsUrl u = Except.error e →
       cfg.type = some t → t ≠ "rawsocket" →
       connect_to cfg = Except.error e) := by
  constructor
  · intro req hreq
    cases hct : cfg.type with
    | none =>
        simp [connect_to, _create_wamp_factory, dictGet, hct,
              ok_bind, err_bind] at hreq
    | some t =>
        by_cases hraw : t = "rawsocket"
        · simp [connect_to, _create_wamp_factory, dictGet, hct, hraw,
                ok_bind, err_bind] at hreq
        · cases hcu : cfg.url with
          | none =>
              simp [connect_to, _create_wamp_factory, _connect_stream,
                    dictGet, hct, hcu, hraw, ok_bind, err_bind] at hreq
          | some u =>
              cases hpu : parseWsUrl u with
              | error _e =>
                  simp [connect_to, _create_wamp_factory, _connect_stream,
                        dictGet, hct, hcu, hraw, hpu, ok_bind, err_bind] at hreq
              | ok pu => exact ⟨u, pu, by simp [hcu], hpu⟩
  · intro u e t hcu hpu hct hraw
    simp [connect_to, _create_wamp_factory, _connect_stream, dictGet,
          hct, hcu, hpu, hraw, ok_bind, err_bind]

/-- Witness for C10 at a concrete config: a unix endpoint whose url lacks a
websocket scheme — `connect_to` fails synchronously with the parse error for
that url. -/
theorem connect_to_requires_parseable_url_witness :
    connect_to
      { type := some "websocket", url := some "example.org/ws", path := none,
        endpoint := some { type := some "unix", path := some "/tmp/x.sock",
                           host := none, port := none,
                           version := none, tls := none } }
      = Except.error (Err.parseError "example.org/ws") :=
  (connect_to_requires_parseable_url
    { type := some "websocket", url := some "example.org/ws", path := none,
      endpoint := some { type := some "unix", path := some "/tmp/x.sock",
                         host := none, port := none,
                         version := none, tls := none } }).2
    "example.org/ws" (Err.parseError "example.org/ws") "websocket"
    rfl rfl rfl (by decide)

end Autobahn
